import Mathlib

/-!
Verification of the `snog` crate (`src/lib.rs`), a thin wrapper over the
vello renderer and the winit event loop.  The development shallowly embeds
the crate's data model and the body of `App::run` as pure Lean functions:
`f64` values are modelled as rationals (`ℚ`), the external GPU / window
calls are modelled as explicit parameters of the step functions, and each
arm of the winit event-loop `match` becomes a handler on an explicit
`AppState` record.
-/

namespace Snog

/-- Embeds `kurbo::Size` (two `f64` fields); `f64` is modelled as `ℚ`. -/
structure Size where
  width : ℚ
  height : ℚ
deriving DecidableEq

/-- Embeds `kurbo::Point`. -/
structure Point where
  x : ℚ
  y : ℚ
deriving DecidableEq

/-- Embeds `winit::event::ElementState`. -/
inductive ElementState where
  | pressed
  | released
deriving DecidableEq

/-- Embeds `winit::event::MouseButton`. -/
inductive MouseButton where
  | left
  | right
  | middle
  | other (code : Nat)
deriving DecidableEq

/-- Embeds `winit::event::VirtualKeyCode`; the concrete key identity is
irrelevant to the crate, which only passes it through, so keycodes are
numbered abstractly. -/
abbrev VirtualKeyCode := Nat

/-- Embeds `winit::event::ModifiersState`. -/
structure ModifiersState where
  shift : Bool
  ctrl : Bool
  alt : Bool
  logo : Bool
deriving DecidableEq

/-- Embeds `winit::event::MouseScrollDelta`.  `LineDelta` carries `f32`
coordinates and `PixelDelta` a `PhysicalPosition<f64>`; both are modelled
as `ℚ`. -/
inductive MouseScrollDelta where
  | lineDelta (x y : ℚ)
  | pixelDelta (x y : ℚ)
deriving DecidableEq

/-- Embeds the `winit::event::KeyboardInput` struct: the element state and
the optional resolved virtual keycode. -/
structure KeyboardInputData where
  state : ElementState
  virtual_keycode : Option VirtualKeyCode
deriving DecidableEq

/-- Embeds the variants of `winit::event::WindowEvent` that `App::run` and
`Event::from_winit_window` inspect.  `resized` carries a
`PhysicalSize<u32>` (two `Nat`s); `scaleFactorChanged` carries the new
scale factor and the new inner size.  Every other raw variant falls into
the catch-all `other`, matching the `_ => None` arm of
`Event::from_winit_window` and the `_ => ()` arm of the event match. -/
inductive WindowEvent where
  | closeRequested
  | cursorMoved (position : Point)
  | mouseInput (state : ElementState) (button : MouseButton)
  | mouseWheel (delta : MouseScrollDelta)
  | keyboardInput (input : KeyboardInputData)
  | modifiersChanged (m : ModifiersState)
  | resized (width height : Nat)
  | scaleFactorChanged (scale_factor : ℚ) (new_width new_height : Nat)
  | other
deriving DecidableEq

/-- Embeds `snog::Screen`: physical pixel size plus scale factor. -/
structure Screen where
  phy_size : Size
  scale_factor : ℚ
deriving DecidableEq

/-- Embeds `Screen::size`: the logical size, physical divided by scale. -/
def Screen.size (s : Screen) : Size :=
  { width := s.phy_size.width / s.scale_factor
    height := s.phy_size.height / s.scale_factor }

/-- Embeds `Screen::scale`. -/
def Screen.scale (s : Screen) : ℚ :=
  s.scale_factor

/-- Embeds `snog::Event`, the normalized event enum handed to the consumer. -/
inductive Event where
  | closeRequested
  | cursorMoved (pos : Point)
  | mouseInput (state : ElementState) (button : MouseButton)
  | mouseWheel (delta : ℚ)
  | keyboardInput (state : ElementState) (keycode : VirtualKeyCode)
  | resized (screen : Screen)
  | modifiersChanged (m : ModifiersState)
deriving DecidableEq

/-- Embeds `Event::from_winit_window`.  Cursor positions are converted to
logical coordinates by dividing by the scale factor (winit's
`to_logical`); a pixel wheel delta `y` becomes `(y / 20.).ceil()`; a line
wheel delta passes through; keyboard input is forwarded only when a
virtual keycode resolved; `Resized` and `ScaleFactorChanged` both map to
`Event::Resized` carrying the given screen; everything else maps to
`none`. -/
def Event.from_winit_window (evt : WindowEvent) (screen : Screen) : Option Event :=
  match evt with
  | .closeRequested => some .closeRequested
  | .cursorMoved position =>
      some (.cursorMoved
        { x := position.x / screen.scale_factor
          y := position.y / screen.scale_factor })
  | .mouseInput state button => some (.mouseInput state button)
  | .mouseWheel delta =>
      match delta with
      | .pixelDelta _ y => some (.mouseWheel ((⌈y / 20⌉ : ℤ) : ℚ))
      | .lineDelta _ y => some (.mouseWheel y)
  | .keyboardInput input =>
      input.virtual_keycode.map (fun keycode => Event.keyboardInput input.state keycode)
  | .modifiersChanged state => some (.modifiersChanged state)
  | .resized _ _ => some (.resized screen)
  | .scaleFactorChanged _ _ _ => some (.resized screen)
  | .other => none

/-- A concrete screen used to instantiate universally quantified theorems. -/
def testScreen : Screen :=
  { phy_size := { width := 100, height := 100 }, scale_factor := 1 }

/-- Embeds `winit::event_loop::ControlFlow` (winit 0.28): variants `Poll`,
`Wait` and `ExitWithCode(i32)`; `WaitUntil` is never used by the crate and
is omitted. -/
inductive ControlFlow where
  | poll
  | wait
  | exitWithCode (code : Int)
deriving DecidableEq

/-- Embeds the winit 0.28 associated constant `ControlFlow::Exit`, defined
there as `ExitWithCode(0)`. -/
def ControlFlow.Exit : ControlFlow :=
  .exitWithCode 0

/-- Embeds `vello::util::RenderSurface` as far as the crate observes it:
the device index and the surface configuration's pixel dimensions. -/
structure Surface where
  dev_id : Nat
  config_width : Nat
  config_height : Nat
deriving DecidableEq

/-- Embeds `winit::window::Window` as far as the crate observes it: its id
and its inner physical size. -/
structure Window where
  id : Nat
  inner_width : Nat
  inner_height : Nat
deriving DecidableEq

/-- Embeds `snog::RenderState`: the GPU surface plus the window it belongs
to. -/
structure RenderState where
  surface : Surface
  window : Window
deriving DecidableEq

/-- Embeds `peniko::Color` (8-bit RGBA). -/
structure Color where
  r : Nat
  g : Nat
  b : Nat
  a : Nat
deriving DecidableEq

/-- Embeds `Color::BLACK`: opaque black. -/
def Color.BLACK : Color :=
  { r := 0, g := 0, b := 0, a := 255 }

/-- Embeds `peniko::Brush` as far as the crate uses it. -/
inductive Brush where
  | solid (color : Color)
deriving DecidableEq

/-- Embeds `peniko::Fill`. -/
inductive Fill where
  | nonZero
  | evenOdd
deriving DecidableEq

/-- Embeds `kurbo::Affine` (six `f64` coefficients). -/
structure Affine where
  xx : ℚ
  yx : ℚ
  xy : ℚ
  yy : ℚ
  tx : ℚ
  ty : ℚ
deriving DecidableEq

/-- Embeds `Affine::IDENTITY`. -/
def Affine.IDENTITY : Affine :=
  { xx := 1, yx := 0, xy := 0, yy := 1, tx := 0, ty := 0 }

/-- Embeds `Affine::scale`. -/
def Affine.scaleBy (s : ℚ) : Affine :=
  { xx := s, yx := 0, xy := 0, yy := s, tx := 0, ty := 0 }

/-- Embeds `kurbo::Rect`. -/
structure Rect where
  x0 : ℚ
  y0 : ℚ
  x1 : ℚ
  y1 : ℚ
deriving DecidableEq

/-- A recorded draw call on a `SceneBuilder`: the crate itself only issues
`fill` calls, so the fragment is modelled as a list of fill commands (the
user's own draw calls are modelled through the same type). -/
inductive DrawCmd where
  | fill (style : Fill) (transform : Affine) (brush : Brush) (shape : Rect)
deriving DecidableEq

/-- The fill that `App::run` issues on every redraw before invoking the
user's render callback: a solid-black non-zero fill of the rectangle
`(0,0)-(10,10)` (the linebender/vello#291 workaround). -/
def blackSquareFill : DrawCmd :=
  .fill .nonZero Affine.IDENTITY (.solid Color.BLACK) { x0 := 0, y0 := 0, x1 := 10, y1 := 10 }

/-- Converts a `PhysicalSize<u32>` to a `kurbo::Size`, as `App::run` does
with `Size::new(size.width as f64, size.height as f64)`. -/
def natSize (width height : Nat) : Size :=
  { width := (width : ℚ), height := (height : ℚ) }

/-- The mutable state owned by the closure passed to `event_loop.run`,
plus two instrumentation fields recording the externally observable
callback activity: `emitted` accumulates every normalized `Event` passed
to `logic.event`, and `renders` counts invocations of `logic.render`. -/
structure AppState where
  screen : Option Screen
  render_state : Option RenderState
  cached_window : Option Window
  control_flow : ControlFlow
  fragment : List DrawCmd
  emitted : List Event
  renders : Nat
deriving DecidableEq

/-- Embeds lines 365-369 of `App::run`: if a screen is recorded, normalize
the raw event against it and, when normalization produces an event, pass
it to `logic.event` together with the control flow.  The consumer's
`event` implementation is modelled as a pure function `eventCb` from the
event and current control flow to the new control flow. -/
def forwardEvent (eventCb : Event → ControlFlow → ControlFlow)
    (s : AppState) (event : WindowEvent) : AppState :=
  match s.screen with
  | none => s
  | some screen =>
      match Event.from_winit_window event screen with
      | none => s
      | some evt =>
          { s with
            control_flow := eventCb evt s.control_flow
            emitted := s.emitted ++ [evt] }

/-- Embeds `render_cx.resize_surface`: the surface configuration takes the
new pixel dimensions. -/
def resizeSurface (surface : Surface) (width height : Nat) : Surface :=
  { surface with config_width := width, config_height := height }

/-- Embeds the `WEvent::WindowEvent { event, window_id }` arm of
`App::run` (lines 313-370).  With no render state or a foreign window id
the handler returns immediately.  A `Resized` event whose physical size
equals the recorded one returns early (emitting nothing); otherwise
`Resized` and `ScaleFactorChanged` update the recorded screen and resize
the surface.  Finally the event is normalized and forwarded whenever a
screen is recorded. -/
def handleWindowEvent (eventCb : Event → ControlFlow → ControlFlow)
    (s : AppState) (window_id : Nat) (event : WindowEvent) : AppState :=
  match s.render_state with
  | none => s
  | some rs =>
      if rs.window.id ≠ window_id then s
      else
        match event with
        | .resized width height =>
            let phy_size := natSize width height
            match s.screen with
            | some sc =>
                if sc.phy_size = phy_size then s
                else
                  forwardEvent eventCb
                    { s with
                      screen := some { sc with phy_size := phy_size }
                      render_state :=
                        some { rs with surface := resizeSurface rs.surface width height } }
                    event
            | none =>
                forwardEvent eventCb
                  { s with
                    screen := some { phy_size := phy_size, scale_factor := 1 }
                    render_state :=
                      some { rs with surface := resizeSurface rs.surface width height } }
                  event
        | .scaleFactorChanged scale_factor new_width new_height =>
            forwardEvent eventCb
              { s with
                screen :=
                  some { phy_size := natSize new_width new_height, scale_factor := scale_factor }
                render_state :=
                  some { rs with surface := resizeSurface rs.surface new_width new_height } }
              event
        | _ => forwardEvent eventCb s event

/-- The `Screen` snapshot handed to the render callback on a redraw tick:
the recorded screen, or one built from the surface configuration with
scale factor 1 when no resize has occurred yet (lines 267-270). -/
def redrawScreen (s : AppState) (rs : RenderState) : Screen :=
  s.screen.getD
    { phy_size := natSize rs.surface.config_width rs.surface.config_height, scale_factor := 1 }

/-- Embeds the `WEvent::RedrawRequested` arm of `App::run` (lines
245-312) up to scene submission.  With no render state the handler
returns immediately.  Otherwise a fresh fragment is built: first the
black-square workaround fill, then whatever the user's render callback
draws (modelled as a pure function `userRender` from the frame's `Screen`
to a list of draw commands).  The GPU submission itself is external and
leaves the modelled state untouched. -/
def handleRedraw (userRender : Screen → List DrawCmd) (s : AppState) : AppState :=
  match s.render_state with
  | none => s
  | some rs =>
      let sc := redrawScreen s rs
      { s with
        fragment := blackSquareFill :: userRender sc
        renders := s.renders + 1 }

/-- Embeds the `WEvent::Resumed` arm of `App::run` (lines 201-231).  If a
render state already exists the handler returns immediately.  Otherwise
the cached window is taken (or a fresh one created — modelled as the
parameter `createdWindow`), and surface creation is attempted (an
external fallible call, modelled as the parameter `surfaceResult`).  On
failure the control flow is set to `ExitWithCode(1)` and no render state
is created; on success the render state is installed and the control flow
set to `Poll`. -/
def handleResumed (createdWindow : Window) (surfaceResult : Option Surface)
    (s : AppState) : AppState :=
  match s.render_state with
  | some _ => s
  | none =>
      let window := s.cached_window.getD createdWindow
      let s1 := { s with cached_window := none }
      match surfaceResult with
      | none => { s1 with control_flow := .exitWithCode 1 }
      | some surface =>
          { s1 with
            render_state := some { surface := surface, window := window }
            control_flow := .poll }

/-- Embeds the `WEvent::Suspended` arm of `App::run` (lines 232-239): the
render state is dropped, its window cached, and the control flow set to
`Wait`. -/
def handleSuspended (s : AppState) : AppState :=
  match s.render_state with
  | none => { s with control_flow := .wait }
  | some rs =>
      { s with
        render_state := none
        cached_window := some rs.window
        control_flow := .wait }

/-- Embeds the `winit::event::Event` values reaching the closure.  The
nondeterministic outcomes of the external calls made while handling
`Resumed` (window creation, surface creation) ride on the event itself;
`MainEventsCleared` only calls `request_redraw` and `other` covers the
`_ => ()` arm, so both leave the modelled state unchanged. -/
inductive WEvent where
  | resumed (createdWindow : Window) (surfaceResult : Option Surface)
  | suspended
  | mainEventsCleared
  | redrawRequested
  | windowEvent (window_id : Nat) (event : WindowEvent)
  | other
deriving DecidableEq

/-- One turn of the closure passed to `event_loop.run`. -/
def step (eventCb : Event → ControlFlow → ControlFlow)
    (userRender : Screen → List DrawCmd) (s : AppState) : WEvent → AppState
  | .resumed createdWindow surfaceResult => handleResumed createdWindow surfaceResult s
  | .suspended => handleSuspended s
  | .mainEventsCleared => s
  | .redrawRequested => handleRedraw userRender s
  | .windowEvent window_id event => handleWindowEvent eventCb s window_id event
  | .other => s

/-- Runs the closure over a whole sequence of loop events. -/
def run (eventCb : Event → ControlFlow → ControlFlow)
    (userRender : Screen → List DrawCmd) (s : AppState) (events : List WEvent) : AppState :=
  events.foldl (step eventCb userRender) s

/-- Embeds the default (not overridden) `AppLogic::event` implementation:
`CloseRequested` sets the control flow to `Exit`; every other event
leaves it unchanged. -/
def defaultEvent (event : Event) (cf : ControlFlow) : ControlFlow :=
  match event with
  | .closeRequested => ControlFlow.Exit
  | _ => cf

/-- Recognizes the loop events whose handling can record a screen: a
window `Resized` or `ScaleFactorChanged` event. -/
def isResizeLike : WEvent → Bool
  | .windowEvent _ (.resized _ _) => true
  | .windowEvent _ (.scaleFactorChanged _ _ _) => true
  | _ => false

/-- A concrete surface for instantiating theorems. -/
def testSurface : Surface :=
  { dev_id := 0, config_width := 100, config_height := 100 }

/-- A concrete window for instantiating theorems. -/
def testWindow : Window :=
  { id := 0, inner_width := 100, inner_height := 100 }

/-- A concrete render state for instantiating theorems. -/
def testRenderState : RenderState :=
  { surface := testSurface, window := testWindow }

/-- A screen recorded by a `Resized(100,100)` event: physical size built
through `natSize`, scale factor 1. -/
def sizedScreen : Screen :=
  { phy_size := natSize 100 100, scale_factor := 1 }

/-- A concrete loop state with a live render state and a recorded screen. -/
def activeState : AppState :=
  { screen := some sizedScreen
    render_state := some testRenderState
    cached_window := none
    control_flow := .poll
    fragment := []
    emitted := []
    renders := 0 }

/-- A concrete loop state with a live render state but no recorded screen
yet (no resize has been handled). -/
def freshActiveState : AppState :=
  { screen := none
    render_state := some testRenderState
    cached_window := none
    control_flow := .poll
    fragment := []
    emitted := []
    renders := 0 }

/-- A concrete loop state before any `Resumed` event. -/
def inertState : AppState :=
  { screen := none
    render_state := none
    cached_window := none
    control_flow := .poll
    fragment := []
    emitted := []
    renders := 0 }

example : Event.from_winit_window (.mouseWheel (.pixelDelta 0 20)) testScreen
    = some (.mouseWheel 1) := by
  have h : (⌈(20 : ℚ) / 20⌉ : ℤ) = 1 := by norm_num
  simp [Event.from_winit_window, h]

example : Event.from_winit_window (.mouseWheel (.pixelDelta 0 21)) testScreen
    = some (.mouseWheel 2) := by
  have h : (⌈(21 : ℚ) / 20⌉ : ℤ) = 2 := by norm_num [Int.ceil_eq_iff]
  simp [Event.from_winit_window, h]

example : Event.from_winit_window (.mouseWheel (.pixelDelta 0 (-20))) testScreen
    = some (.mouseWheel (-1)) := by
  have h : (⌈(-20 : ℚ) / 20⌉ : ℤ) = -1 := by norm_num [Int.ceil_eq_iff]
  simp only [Event.from_winit_window]
  rw [h]
  norm_num

example : Event.from_winit_window (.mouseWheel (.lineDelta 0 3)) testScreen
    = some (.mouseWheel 3) := by
  simp [Event.from_winit_window]

/-- C1: with the default (not overridden) `AppLogic::event` implementation,
handling a `CloseRequested` window event — in any state where the loop is
active and a screen is recorded, so that the event actually reaches the
callback — sets the control flow to `Exit`; and the default callback
itself maps `CloseRequested` to `Exit` whatever the current control flow. -/
theorem closeRequested_sets_exit
    (s : AppState) (rs : RenderState) (sc : Screen) (cf : ControlFlow)
    (hrs : s.render_state = some rs) (hsc : s.screen = some sc) :
    (handleWindowEvent defaultEvent s rs.window.id .closeRequested).control_flow
      = ControlFlow.Exit
    ∧ defaultEvent .closeRequested cf = ControlFlow.Exit := by
  constructor
  · simp [handleWindowEvent, hrs, forwardEvent, hsc, Event.from_winit_window, defaultEvent]
  · rfl

theorem closeRequested_sets_exit_witness :
    (handleWindowEvent defaultEvent activeState testRenderState.window.id
        .closeRequested).control_flow = ControlFlow.Exit
    ∧ defaultEvent .closeRequested .poll = ControlFlow.Exit :=
  closeRequested_sets_exit activeState testRenderState sizedScreen .poll rfl rfl

/-- C4: for every physical size `P` and scale factor `S > 0`,
`Screen::size` returns the logical size `(P.width / S, P.height / S)`. -/
theorem screen_size_is_logical (P : Size) (S : ℚ) (hS : 0 < S) :
    Screen.size { phy_size := P, scale_factor := S }
      = { width := P.width / S, height := P.height / S } :=
  rfl

theorem screen_size_is_logical_witness :
    Screen.size { phy_size := { width := 4, height := 2 }, scale_factor := 1 }
      = { width := 4 / 1, height := 2 / 1 } :=
  screen_size_is_logical { width := 4, height := 2 } 1 one_pos

/-- C5: a raw keyboard window event normalizes to a `KeyboardInput` event
carrying the resolved keycode and the element state exactly when the raw
event carries a resolved virtual keycode; without one it produces no
normalized event. -/
theorem keyboard_forwarded_iff_keycode (input : KeyboardInputData) (sc : Screen) :
    (∀ keycode, input.virtual_keycode = some keycode →
      Event.from_winit_window (.keyboardInput input) sc
        = some (.keyboardInput input.state keycode))
    ∧ (input.virtual_keycode = none →
      Event.from_winit_window (.keyboardInput input) sc = none) := by
  constructor
  · intro keycode hk
    simp [Event.from_winit_window, hk]
  · intro hk
    simp [Event.from_winit_window, hk]

theorem keyboard_forwarded_iff_keycode_witness :
    Event.from_winit_window
        (.keyboardInput { state := .pressed, virtual_keycode := some 5 }) testScreen
      = some (.keyboardInput .pressed 5) :=
  (keyboard_forwarded_iff_keycode { state := .pressed, virtual_keycode := some 5 }
    testScreen).1 5 rfl

/-- C9: a window event whose window id differs from the id of the window
owned by the current render state is ignored entirely: the handler
returns the state unchanged, so nothing is normalized, the event callback
is not invoked, and no state changes. -/
theorem foreign_window_ignored
    (eventCb : Event → ControlFlow → ControlFlow) (s : AppState) (rs : RenderState)
    (window_id : Nat) (event : WindowEvent)
    (hrs : s.render_state = some rs) (hid : rs.window.id ≠ window_id) :
    handleWindowEvent eventCb s window_id event = s := by
  simp [handleWindowEvent, hrs, hid]

theorem foreign_window_ignored_witness :
    handleWindowEvent defaultEvent activeState 1 .closeRequested = activeState :=
  foreign_window_ignored defaultEvent activeState testRenderState 1 .closeRequested rfl
    (by decide)

/-- C3: when a screen is already recorded and a `Resized` window event
arrives whose physical size equals the recorded one, the handler returns
the state unchanged: no normalized `Resized` event is emitted, the
recorded screen is untouched, and the surface is not resized. -/
theorem redundant_resize_is_noop
    (eventCb : Event → ControlFlow → ControlFlow) (s : AppState) (rs : RenderState)
    (sc : Screen) (width height : Nat)
    (hrs : s.render_state = some rs) (hsc : s.screen = some sc)
    (hsz : sc.phy_size = natSize width height) :
    handleWindowEvent eventCb s rs.window.id (.resized width height) = s
    ∧ (handleWindowEvent eventCb s rs.window.id (.resized width height)).emitted = s.emitted
    ∧ (handleWindowEvent eventCb s rs.window.id (.resized width height)).screen = s.screen
    ∧ (handleWindowEvent eventCb s rs.window.id (.resized width height)).render_state
        = s.render_state := by
  have h : handleWindowEvent eventCb s rs.window.id (.resized width height) = s := by
    simp [handleWindowEvent, hrs, hsc, hsz]
  exact ⟨h, by rw [h], by rw [h], by rw [h]⟩

theorem redundant_resize_is_noop_witness :
    handleWindowEvent defaultEvent activeState testRenderState.window.id (.resized 100 100)
      = activeState
    ∧ (handleWindowEvent defaultEvent activeState testRenderState.window.id
        (.resized 100 100)).emitted = activeState.emitted
    ∧ (handleWindowEvent defaultEvent activeState testRenderState.window.id
        (.resized 100 100)).screen = activeState.screen
    ∧ (handleWindowEvent defaultEvent activeState testRenderState.window.id
        (.resized 100 100)).render_state = activeState.render_state :=
  redundant_resize_is_noop defaultEvent activeState testRenderState sizedScreen 100 100
    rfl rfl rfl

/-- C6: if surface creation fails while handling a `Resumed` event in a
state with no render state, the handler sets the control flow to
`ExitWithCode(1)` — a non-zero exit code — creates no render state, and
does not retry (the single resume turn ends there). -/
theorem surface_failure_exits_nonzero (s : AppState) (createdWindow : Window)
    (hrs : s.render_state = none) :
    (handleResumed createdWindow none s).control_flow = .exitWithCode 1
    ∧ (handleResumed createdWindow none s).render_state = none
    ∧ (1 : Int) ≠ 0 := by
  refine ⟨?_, ?_, by decide⟩ <;> simp [handleResumed, hrs]

theorem surface_failure_exits_nonzero_witness :
    (handleResumed testWindow none inertState).control_flow = .exitWithCode 1
    ∧ (handleResumed testWindow none inertState).render_state = none
    ∧ (1 : Int) ≠ 0 :=
  surface_failure_exits_nonzero inertState testWindow rfl

/-- C7: while no render state exists, a redraw tick returns the state
unchanged without invoking the render callback (the render count is
untouched), and a window event returns the state unchanged without
invoking the event callback (nothing is emitted). -/
theorem inactive_handlers_are_noops
    (eventCb : Event → ControlFlow → ControlFlow) (userRender : Screen → List DrawCmd)
    (s : AppState) (window_id : Nat) (event : WindowEvent)
    (hrs : s.render_state = none) :
    handleRedraw userRender s = s
    ∧ handleWindowEvent eventCb s window_id event = s
    ∧ (handleRedraw userRender s).renders = s.renders
    ∧ (handleWindowEvent eventCb s window_id event).emitted = s.emitted := by
  have h1 : handleRedraw userRender s = s := by simp [handleRedraw, hrs]
  have h2 : handleWindowEvent eventCb s window_id event = s := by
    simp [handleWindowEvent, hrs]
  exact ⟨h1, h2, by rw [h1], by rw [h2]⟩

theorem inactive_handlers_are_noops_witness :
    handleRedraw (fun _ => []) inertState = inertState
    ∧ handleWindowEvent defaultEvent inertState 0 .closeRequested = inertState
    ∧ (handleRedraw (fun _ => []) inertState).renders = inertState.renders
    ∧ (handleWindowEvent defaultEvent inertState 0 .closeRequested).emitted
        = inertState.emitted :=
  inactive_handlers_are_noops defaultEvent (fun _ => []) inertState 0 .closeRequested rfl

/-- C10: on a redraw tick in an active state, the freshly built fragment
is the black-square workaround fill followed by the user's draw calls:
the fill — a solid-black non-zero fill of the rectangle `(0,0)-(10,10)`
— is issued before the render callback runs, so the fragment is never
just the user's draw calls. -/
theorem black_square_precedes_user_draws
    (userRender : Screen → List DrawCmd) (s : AppState) (rs : RenderState)
    (hrs : s.render_state = some rs) :
    (handleRedraw userRender s).fragment
        = blackSquareFill :: userRender (redrawScreen s rs)
    ∧ blackSquareFill ∈ (handleRedraw userRender s).fragment
    ∧ blackSquareFill
        = .fill .nonZero Affine.IDENTITY (.solid Color.BLACK)
            { x0 := 0, y0 := 0, x1 := 10, y1 := 10 }
    ∧ (handleRedraw userRender s).fragment ≠ userRender (redrawScreen s rs) := by
  have h : (handleRedraw userRender s).fragment
      = blackSquareFill :: userRender (redrawScreen s rs) := by
    simp [handleRedraw, hrs]
  refine ⟨h, ?_, rfl, ?_⟩
  · rw [h]; exact List.mem_cons_self _ _
  · rw [h]; exact List.cons_ne_self _ _

theorem black_square_precedes_user_draws_witness :
    (handleRedraw (fun _ => []) activeState).fragment
        = blackSquareFill :: (fun _ => ([] : List DrawCmd)) (redrawScreen activeState testRenderState)
    ∧ blackSquareFill ∈ (handleRedraw (fun _ => []) activeState).fragment
    ∧ blackSquareFill
        = .fill .nonZero Affine.IDENTITY (.solid Color.BLACK)
            { x0 := 0, y0 := 0, x1 := 10, y1 := 10 }
    ∧ (handleRedraw (fun _ => []) activeState).fragment
        ≠ (fun _ => ([] : List DrawCmd)) (redrawScreen activeState testRenderState) :=
  black_square_precedes_user_draws (fun _ => []) activeState testRenderState rfl

/-- C2 counterexample: the claim says a pixel delta of 21 maps to line
delta 1, but the code computes `(21 / 20).ceil() = 2`, so the normalized
event at pixel delta 21 is `MouseWheel { delta: 2.0 }`, not 1. -/
theorem wheel_pixel21_maps_to_two_not_one :
    Event.from_winit_window (.mouseWheel (.pixelDelta 0 21)) testScreen
      ≠ some (.mouseWheel 1)
    ∧ Event.from_winit_window (.mouseWheel (.pixelDelta 0 21)) testScreen
      = some (.mouseWheel 2) := by
  have h : (⌈(21 : ℚ) / 20⌉ : ℤ) = 2 := by norm_num [Int.ceil_eq_iff]
  constructor
  · simp only [Event.from_winit_window]
    rw [h]
    norm_num
  · simp only [Event.from_winit_window]
    rw [h]
    norm_num

/-- C2 (amended): mouse-wheel normalization divides a pixel delta by 20
and rounds up to the nearest whole line, while line deltas pass through
unchanged; in particular a pixel delta of exactly 20 maps to line delta
1, a pixel delta of 21 maps to line delta 2 (the ceiling of 1.05), a
pixel delta of -20 maps to -1, and a line delta of 3.0 maps to 3.0. -/
theorem wheel_delta_normalization (sc : Screen) (x y : ℚ) :
    Event.from_winit_window (.mouseWheel (.pixelDelta x y)) sc
      = some (.mouseWheel ((⌈y / 20⌉ : ℤ) : ℚ))
    ∧ Event.from_winit_window (.mouseWheel (.lineDelta x y)) sc
      = some (.mouseWheel y)
    ∧ Event.from_winit_window (.mouseWheel (.pixelDelta 0 20)) sc = some (.mouseWheel 1)
    ∧ Event.from_winit_window (.mouseWheel (.pixelDelta 0 21)) sc = some (.mouseWheel 2)
    ∧ Event.from_winit_window (.mouseWheel (.pixelDelta 0 (-20))) sc
      = some (.mouseWheel (-1))
    ∧ Event.from_winit_window (.mouseWheel (.lineDelta 0 3)) sc = some (.mouseWheel 3) := by
  have h20 : (⌈(20 : ℚ) / 20⌉ : ℤ) = 1 := by norm_num
  have h21 : (⌈(21 : ℚ) / 20⌉ : ℤ) = 2 := by norm_num [Int.ceil_eq_iff]
  have hm20 : (⌈(-20 : ℚ) / 20⌉ : ℤ) = -1 := by norm_num [Int.ceil_eq_iff]
  refine ⟨rfl, rfl, ?_, ?_, ?_, rfl⟩
  · simp only [Event.from_winit_window]; rw [h20]; norm_num
  · simp only [Event.from_winit_window]; rw [h21]; norm_num
  · simp only [Event.from_winit_window]; rw [hm20]; norm_num

/-- Single-step version of C8: a loop event that is neither a window
`Resized` nor a `ScaleFactorChanged` event, handled while no screen is
recorded, leaves the recorded screen absent and emits nothing. -/
theorem step_no_screen_no_events
    (eventCb : Event → ControlFlow → ControlFlow) (userRender : Screen → List DrawCmd)
    (s : AppState) (e : WEvent)
    (hsc : s.screen = none) (hre : isResizeLike e = false) :
    (step eventCb userRender s e).screen = none
    ∧ (step eventCb userRender s e).emitted = s.emitted := by
  cases e with
  | resumed createdWindow surfaceResult =>
      cases hr : s.render_state with
      | none =>
          cases surfaceResult <;> simp [step, handleResumed, hr, hsc]
      | some rs => simp [step, handleResumed, hr, hsc]
  | suspended =>
      cases hr : s.render_state with
      | none => simp [step, handleSuspended, hr, hsc]
      | some rs => simp [step, handleSuspended, hr, hsc]
  | mainEventsCleared => exact ⟨hsc, rfl⟩
  | redrawRequested =>
      cases hr : s.render_state with
      | none => simp [step, handleRedraw, hr, hsc]
      | some rs => simp [step, handleRedraw, hr, hsc]
  | windowEvent window_id event =>
      cases hr : s.render_state with
      | none => simp [step, handleWindowEvent, hr, hsc]
      | some rs =>
          by_cases hid : rs.window.id = window_id
          · cases event <;>
              simp_all [step, handleWindowEvent, hr, hsc, forwardEvent, isResizeLike]
          · simp [step, handleWindowEvent, hr, hid, hsc]
  | other => exact ⟨hsc, rfl⟩

/-- C8: starting from a state with no recorded screen, running any
sequence of loop events containing no window `Resized` and no
`ScaleFactorChanged` event — i.e. everything that happens before the
first resize has been handled — forwards nothing to the event callback
(including `CloseRequested`) and leaves the screen unrecorded. -/
theorem no_forwarding_before_first_resize
    (eventCb : Event → ControlFlow → ControlFlow) (userRender : Screen → List DrawCmd)
    (s : AppState) (events : List WEvent)
    (hsc : s.screen = none) (hre : ∀ e ∈ events, isResizeLike e = false) :
    (run eventCb userRender s events).emitted = s.emitted
    ∧ (run eventCb userRender s events).screen = none := by
  induction events generalizing s with
  | nil => exact ⟨rfl, hsc⟩
  | cons e rest ih =>
      have he : isResizeLike e = false := hre e (List.mem_cons_self e rest)
      have hstep := step_no_screen_no_events eventCb userRender s e hsc he
      have hrest := ih (step eventCb userRender s e) hstep.1
        (fun x hx => hre x (List.mem_cons_of_mem e hx))
      exact ⟨by rw [run, List.foldl_cons, ← run, hrest.1, hstep.2], hrest.2⟩

theorem no_forwarding_before_first_resize_witness :
    (run defaultEvent (fun _ => []) freshActiveState
        [.windowEvent 0 .closeRequested, .redrawRequested,
          .windowEvent 0 (.mouseInput .pressed .left)]).emitted
      = freshActiveState.emitted
    ∧ (run defaultEvent (fun _ => []) freshActiveState
        [.windowEvent 0 .closeRequested, .redrawRequested,
          .windowEvent 0 (.mouseInput .pressed .left)]).screen = none :=
  no_forwarding_before_first_resize defaultEvent (fun _ => []) freshActiveState
    [.windowEvent 0 .closeRequested, .redrawRequested,
      .windowEvent 0 (.mouseInput .pressed .left)]
    rfl (by decide)

end Snog
